import Mathlib

/-!
Verification of the quotecast utilities module of `degiro-connector`
(`quotecast/utilities.py`): a shallow embedding of its three operations
(`get_session_id`, `fetch_data`, `subscribe`) and proofs about them.

External collaborators (the HTTP transport, the JSON decoder invoked by
`response.json()`, the wall clock `time.time`, and `time.localtime`) are
passed in as explicit arguments, so every definition is a pure function of
the collaborators' observed behaviour.  Python exceptions are modelled with
`Except`: a returned `.error` is a propagated exception, a plain value is a
normal return.  Logger calls are recorded as a trace of
(severity, format-string) pairs; interpolated arguments of non-string type
are elided, except that `logger.fatal(e)` records the exception text `e`.
Literal braces inside string literals are written with escapes.
-/

namespace Quotecast

/-- Log severities used by the module (`logger.debug` / `.info` / `.fatal`). -/
inductive Level where
  | debug
  | info
  | fatal
deriving DecidableEq, Repr

/-- A prepared HTTP request, as built by `requests.Request(...)` +
`session.prepare_request`: method, URL, query parameters and body. -/
structure Request where
  method : String
  url : String
  params : List (String × String)
  data : String
deriving DecidableEq, Repr

instance {ε α : Type} [DecidableEq ε] [DecidableEq α] : DecidableEq (Except ε α) := fun x y =>
  match x, y with
  | .error e, .error f =>
      if h : e = f then .isTrue (by rw [h]) else .isFalse (by simp [h])
  | .ok a, .ok b =>
      if h : a = b then .isTrue (by rw [h]) else .isFalse (by simp [h])
  | .error _, .ok _ => .isFalse (by simp)
  | .ok _, .error _ => .isFalse (by simp)

/-- Python exceptions that the module can let escape to the caller. -/
inductive PyErr where
  | brokenPipeError (msg : String)
  | attributeError (msg : String)
  | transportError (msg : String)
deriving DecidableEq, Repr

/- ### Session acquisition (`get_session_id`) -/

/-- The transport's answer to the acquisition request, reduced to what
`get_session_id` observes: the outcome of `response.json()` — either the
decoded key/value structure or a raised decoding error.  (`session.send`
itself raising is the `.error` case of the `send` collaborator below.) -/
structure AcqResponse where
  jsonResult : Except String (List (String × String))

/-- The value `get_session_id` hands back: a session identifier string, the
Python literal `False` (transport failure), or `None` (no `sessionId` key). -/
inductive SessionIdResult where
  | sessionId (value : String)
  | failure
  | noId
deriving DecidableEq, Repr

/-- Observable outcome of one `get_session_id` call: the log trace and the
returned value.  The function returns on every path, so there is no
`Except` in the result type. -/
structure AcqOutcome where
  log : List (Level × String)
  result : SessionIdResult
deriving DecidableEq, Repr

/-- Embedding of `get_session_id` (utilities.py lines 43-87).
`endpointUrl` is the external constant `Endpoint.URL`, `version` the
external constant `Endpoint.VERSION`; `send` is the transport
(`session.send`), whose `.error` case is a raised transport exception. -/
def get_session_id (endpointUrl : String) (version : String) (user_token : Int)
    (send : Request → Except String AcqResponse) : AcqOutcome :=
  let url := endpointUrl ++ "/request_session"
  let parameters := [("version", version), ("userToken", toString user_token)]
  let data := "\x7b\"referrer\":\"https://trader.degiro.nl\"\x7d"
  let request : Request := ⟨"POST", url, parameters, data⟩
  match send request with
  | .error e => { log := [(.fatal, e)], result := .failure }
  | .ok response =>
    match response.jsonResult with
    | .error e => { log := [(.fatal, e)], result := .failure }
    | .ok response_dict =>
      { log := [(.info, "get_session_id:response_dict: %s")],
        result :=
          match response_dict.lookup "sessionId" with
          | some v => .sessionId v
          | none => .noId }

/- ### Data polling (`fetch_data`) -/

/-- A broken-down calendar time, as returned by `time.localtime`. -/
structure StructTime where
  tm_year : Nat
  tm_mon : Nat
  tm_mday : Nat
  tm_hour : Nat
  tm_min : Nat
  tm_sec : Nat
deriving DecidableEq, Repr

/-- Zero-pad a number to two digits, as `%m`/`%d`/`%H`/`%M`/`%S` do. -/
def pad2 (n : Nat) : String :=
  if n < 10 then "0" ++ Nat.repr n else Nat.repr n

/-- `time.strftime("%Y-%m-%d %H:%M:%S", t)` on a broken-down time. -/
def strftimeYmdHMS (t : StructTime) : String :=
  Nat.repr t.tm_year ++ "-" ++ pad2 t.tm_mon ++ "-" ++ pad2 t.tm_mday ++ " " ++
    pad2 t.tm_hour ++ ":" ++ pad2 t.tm_min ++ ":" ++ pad2 t.tm_sec

/-- What `fetch_data` observes of a successful poll response: the verbatim
body text and `response.cookies._now`, the epoch-seconds timestamp the
`requests` transport layer stamped on the response. -/
structure PollResponse where
  text : String
  cookiesNow : Nat
deriving DecidableEq, Repr

/-- The protobuf `Metadata` record filled in by `fetch_data`. -/
structure Metadata where
  response_datetime : String
  request_duration : Int
deriving DecidableEq, Repr

/-- The protobuf `RawResponse` record returned by `fetch_data`. -/
structure RawResponse where
  response_json : String
  metadata : Metadata
deriving DecidableEq, Repr

/-- Observable outcome of one `fetch_data` call: log trace, and either the
returned `RawResponse` or the propagated exception. -/
structure FetchOutcome where
  log : List (Level × String)
  result : Except PyErr RawResponse
deriving DecidableEq, Repr

/-- The literal sentinel body `[{"m":"sr"}]` signalling session reset. -/
def sentinelResetPayload : String := "[\x7b\"m\":\"sr\"\x7d]"

/-- Embedding of `fetch_data` (utilities.py lines 89-155).
`localtime` is `time.localtime`; `start` and `stop` are the two
`time.time()` readings taken around the send (system-clock reads at call
time).  There is no try/except in the source: a transport exception from
`send` propagates (`.error (.transportError _)`), and the sentinel body
raises `BrokenPipeError`. -/
def fetch_data (endpointUrl : String) (localtime : Nat → StructTime)
    (start stop : Int) (session_id : String)
    (send : Request → Except String PollResponse) : FetchOutcome :=
  let url := endpointUrl ++ "/" ++ session_id
  let request : Request := ⟨"GET", url, [], ""⟩
  match send request with
  | .error e => { log := [], result := .error (.transportError e) }
  | .ok response =>
    if response.text = sentinelResetPayload then
      { log := [], result := .error (.brokenPipeError "A new \"session_id\" is required.") }
    else
      let request_duration := stop - start
      let response_datetime := strftimeYmdHMS (localtime response.cookiesNow)
      let metadata : Metadata := ⟨response_datetime, request_duration⟩
      let raw_response : RawResponse := ⟨response.text, metadata⟩
      { log := [(.debug, "fetch_data:raw_response.response_json: %s"),
                (.debug, "fetch_data:raw_response.response_datetime: %s"),
                (.debug, "fetch_data:raw_response.request_duration: %s")],
        result := .ok raw_response }

/- ### Subscription control (`subscribe`) -/

/-- Modelled from the spec: the protobuf `Action` enumeration
(`quotecast/pb/quotecast_pb2.py`, not under `src/`) is a two-valued
enumeration (SUBSCRIBE, UNSUBSCRIBE) carried as a machine integer, so a
caller can also pass any other integer; the two named members are the
distinct values below. -/
def Action.SUBSCRIBE : Nat := 0

/-- Modelled from the spec: the second named member of `Action`. -/
def Action.UNSUBSCRIBE : Nat := 1

/-- The protobuf `SubscriptionRequest` record consumed by `subscribe`. -/
structure SubscriptionRequest where
  action : Nat
  product_id : Nat
  label_list : List String
deriving DecidableEq, Repr

/-- What `subscribe` observes of a poll response: body text and HTTP
status code. -/
structure SubResponse where
  text : String
  status_code : Nat
deriving DecidableEq, Repr

/-- Observable outcome of one `subscribe` call: the requests actually
handed to the transport (in order), the log trace, and either the returned
boolean or the propagated exception. -/
structure SubscribeOutcome where
  sent : List Request
  log : List (Level × String)
  result : Except PyErr Bool
deriving DecidableEq, Repr

/-- The control payload built by the `for label in ... label_list` loop and
the final concatenation (utilities.py lines 186-189): tokens are
accumulated by appending to a list, then joined with `;` and wrapped. -/
def controlData (action : String) (subscription_request : SubscriptionRequest) : String :=
  let data := subscription_request.label_list.foldl
    (fun acc label =>
      acc ++ [action ++ "(" ++ Nat.repr subscription_request.product_id ++ "." ++ label ++ ")"])
    []
  "\x7b\"controlData\":\"" ++ String.intercalate ";" data ++ ";\"\x7d"

/-- The tail of `subscribe` after the verb has been chosen (utilities.py
lines 186-211): build the payload, log it, send, catch only transport
exceptions (returning `False`), else return `status_code == 200`. -/
def subscribeSend (url : String) (action : String)
    (subscription_request : SubscriptionRequest)
    (send : Request → Except String SubResponse) : SubscribeOutcome :=
  let data := controlData action subscription_request
  let request : Request := ⟨"POST", url, [], data⟩
  match send request with
  | .error e =>
      { sent := [request],
        log := [(.info, "subscribe:payload: %s"), (.fatal, e)],
        result := .ok false }
  | .ok response =>
      { sent := [request],
        log := [(.info, "subscribe:payload: %s"),
                (.debug, "subscribe:response.text: %s"),
                (.debug, "subscribe:response.status_code: %s")],
        result := .ok (response.status_code == 200) }

/-- Embedding of `subscribe` (utilities.py lines 157-211).  The verb
dispatch on `subscription_request.action` happens first; an unknown action
raises `AttributeError` before any payload is built or request sent. -/
def subscribe (endpointUrl : String) (subscription_request : SubscriptionRequest)
    (session_id : String)
    (send : Request → Except String SubResponse) : SubscribeOutcome :=
  let url := endpointUrl ++ "/" ++ session_id
  if subscription_request.action = Action.SUBSCRIBE then
    subscribeSend url "req" subscription_request send
  else if subscription_request.action = Action.UNSUBSCRIBE then
    subscribeSend url "rel" subscription_request send
  else
    { sent := [], log := [],
      result := .error (.attributeError "Unknown \"Request.action\".") }

/-- Decimal digit characters of `n`, most significant first; the list
`Nat.repr` (used by the f-strings and by `strftimeYmdHMS`) produces. -/
def decimalDigits (n : Nat) : List Char :=
  if n < 10 then [Nat.digitChar n]
  else decimalDigits (n / 10) ++ [Nat.digitChar (n % 10)]
termination_by n
decreasing_by exact Nat.div_lt_self (by omega) (by omega)

/- ### Helper lemmas -/

lemma toDigitsCore_append (b : Nat) : ∀ (fuel n : Nat) (ds : List Char),
    Nat.toDigitsCore b fuel n ds = Nat.toDigitsCore b fuel n [] ++ ds := by
  intro fuel
  induction fuel with
  | zero => intro n ds; simp [Nat.toDigitsCore]
  | succ fuel ih =>
      intro n ds
      simp only [Nat.toDigitsCore]
      by_cases h : n / b = 0
      · simp [h]
      · simp only [if_neg h]
        rw [ih (n / b) (Nat.digitChar (n % b) :: ds), ih (n / b) [Nat.digitChar (n % b)]]
        simp

lemma toDigitsCore_eq_decimalDigits : ∀ (fuel n : Nat), n < fuel →
    Nat.toDigitsCore 10 fuel n [] = decimalDigits n := by
  intro fuel
  induction fuel with
  | zero => intro n h; omega
  | succ fuel ih =>
      intro n h
      simp only [Nat.toDigitsCore]
      by_cases h10 : n < 10
      · have hdiv : n / 10 = 0 := Nat.div_eq_of_lt h10
        have hmod : n % 10 = n := Nat.mod_eq_of_lt h10
        rw [decimalDigits]
        simp [hdiv, hmod, h10]
      · have hdiv : n / 10 ≠ 0 := by
          intro hc
          have hlt : n < 10 := by
            have := Nat.div_eq_zero_iff (by omega : 0 < 10) |>.mp hc
            omega
          omega
        simp only [if_neg hdiv]
        rw [toDigitsCore_append 10 fuel (n / 10) [Nat.digitChar (n % 10)]]
        rw [ih (n / 10) (by omega : n / 10 < fuel)]
        conv_rhs => rw [decimalDigits]
        simp [h10]

lemma repr_data_eq (n : Nat) : (Nat.repr n).data = decimalDigits n := by
  show (Nat.toDigits 10 n).asString.data = decimalDigits n
  rw [Nat.toDigits, toDigitsCore_eq_decimalDigits (n + 1) n (by omega)]
  rfl

lemma decimalDigits_length : ∀ (k n : Nat), 10 ^ k ≤ n → n < 10 ^ (k + 1) →
    (decimalDigits n).length = k + 1 := by
  intro k
  induction k with
  | zero =>
      intro n h1 h2
      rw [decimalDigits]
      simp at h2
      simp [h2]
  | succ k ih =>
      intro n h1 h2
      have h10 : ¬ n < 10 := by
        have : 10 ≤ 10 ^ (k + 1) := by
          calc 10 = 10 ^ 1 := by norm_num
          _ ≤ 10 ^ (k + 1) := Nat.pow_le_pow_right (by omega) (by omega)
        omega
      rw [decimalDigits]
      simp only [if_neg h10, List.length_append, List.length_cons, List.length_nil]
      have hlo : 10 ^ k ≤ n / 10 := by
        rw [Nat.le_div_iff_mul_le (by omega : 0 < 10)]
        calc 10 ^ k * 10 = 10 ^ (k + 1) := by ring
        _ ≤ n := h1
      have hhi : n / 10 < 10 ^ (k + 1) := by
        rw [Nat.div_lt_iff_lt_mul (by omega : 0 < 10)]
        calc n < 10 ^ (k + 1 + 1) := h2
        _ = 10 ^ (k + 1) * 10 := by ring
      rw [ih (n / 10) hlo hhi]

lemma digitChar_isDigit (n : Nat) (h : n < 10) : (Nat.digitChar n).isDigit = true := by
  have : ∀ m : Fin 10, (Nat.digitChar m.val).isDigit = true := by decide
  exact this ⟨n, h⟩

lemma decimalDigits_all_isDigit : ∀ n, (decimalDigits n).all Char.isDigit = true := by
  intro n
  induction n using Nat.strong_induction_on with
  | _ n ih =>
      rw [decimalDigits]
      by_cases h10 : n < 10
      · simp [h10, digitChar_isDigit n h10]
      · simp only [if_neg h10, List.all_append]
        rw [ih (n / 10) (Nat.div_lt_self (by omega) (by omega))]
        simp [digitChar_isDigit (n % 10) (Nat.mod_lt n (by omega))]

lemma repr_year_data (y : Nat) (h1 : 1000 ≤ y) (h2 : y < 10000) :
    (Nat.repr y).data.length = 4 ∧ (Nat.repr y).data.all Char.isDigit = true := by
  rw [repr_data_eq]
  refine ⟨?_, decimalDigits_all_isDigit y⟩
  have e3 : (10 : Nat) ^ 3 = 1000 := by norm_num
  have e4 : (10 : Nat) ^ (3 + 1) = 10000 := by norm_num
  have := decimalDigits_length 3 y (by omega) (by omega)
  omega

lemma pad2_data (n : Nat) (h : n < 100) :
    (pad2 n).data.length = 2 ∧ (pad2 n).data.all Char.isDigit = true := by
  have key : ∀ m : Fin 100, (pad2 m.val).data.length = 2 ∧
      (pad2 m.val).data.all Char.isDigit = true := by decide
  exact key ⟨n, h⟩

lemma foldl_push_eq_map {α β : Type} (f : α → β) :
    ∀ (l : List α) (acc : List β), l.foldl (fun a x => a ++ [f x]) acc = acc ++ l.map f := by
  intro l
  induction l with
  | nil => intro acc; simp
  | cons x xs ih => intro acc; simp [ih]

lemma controlData_eq (action : String) (req : SubscriptionRequest) :
    controlData action req =
      "\x7b\"controlData\":\"" ++
        String.intercalate ";"
          (req.label_list.map fun label =>
            action ++ "(" ++ Nat.repr req.product_id ++ "." ++ label ++ ")") ++
        ";\"\x7d" := by
  unfold controlData
  rw [foldl_push_eq_map]
  simp

lemma subscribeSend_sent (url action : String) (req : SubscriptionRequest)
    (send : Request → Except String SubResponse) :
    (subscribeSend url action req send).sent = [⟨"POST", url, [], controlData action req⟩] := by
  simp only [subscribeSend]
  split <;> rfl

lemma subscribeSend_result_ok (url action : String) (req : SubscriptionRequest)
    (send : Request → Except String SubResponse) :
    ∃ b : Bool, (subscribeSend url action req send).result = .ok b := by
  simp only [subscribeSend]
  split
  · exact ⟨false, rfl⟩
  · exact ⟨_, rfl⟩

/- ### Claim theorems -/

/-- C1: for a poll call whose transport delivers a response, if the raw body
is textually exactly the sentinel `[{"m":"sr"}]` then `fetch_data` fails by
raising the `BrokenPipeError` session-expired error, and for every other
body it returns a `RawResponse` whose `response_json` is exactly the
verbatim body, unchanged. -/
theorem C1_fetch_data_sentinel_or_passthrough (E sid : String)
    (localtime : Nat → StructTime) (start stop : Int) (resp : PollResponse) :
    (resp.text = sentinelResetPayload →
      (fetch_data E localtime start stop sid (fun _ => .ok resp)).result =
        .error (.brokenPipeError "A new \"session_id\" is required.")) ∧
    (resp.text ≠ sentinelResetPayload →
      ∃ raw : RawResponse,
        (fetch_data E localtime start stop sid (fun _ => .ok resp)).result = .ok raw ∧
        raw.response_json = resp.text) := by
  constructor
  · intro h
    simp [fetch_data, h]
  · intro h
    refine ⟨⟨resp.text, ⟨strftimeYmdHMS (localtime resp.cookiesNow), stop - start⟩⟩, ?_, rfl⟩
    simp [fetch_data, h]

theorem C1_fetch_data_sentinel_or_passthrough_witness :
    ((fetch_data "url" (fun _ => ⟨1970, 1, 1, 0, 0, 0⟩) 0 0 "sid"
        (fun _ => .ok ⟨"[\x7b\"m\":\"sr\"\x7d]", 0⟩)).result =
      .error (.brokenPipeError "A new \"session_id\" is required.")) ∧
    (∃ raw : RawResponse,
      (fetch_data "url" (fun _ => ⟨1970, 1, 1, 0, 0, 0⟩) 0 0 "sid"
          (fun _ => .ok ⟨"[\x7b\"m\":\"u\",\"v\":[1,2]\x7d]", 0⟩)).result = .ok raw ∧
      raw.response_json = "[\x7b\"m\":\"u\",\"v\":[1,2]\x7d]") :=
  ⟨(C1_fetch_data_sentinel_or_passthrough "url" "sid" (fun _ => ⟨1970, 1, 1, 0, 0, 0⟩) 0 0
      ⟨"[\x7b\"m\":\"sr\"\x7d]", 0⟩).1 rfl,
   (C1_fetch_data_sentinel_or_passthrough "url" "sid" (fun _ => ⟨1970, 1, 1, 0, 0, 0⟩) 0 0
      ⟨"[\x7b\"m\":\"u\",\"v\":[1,2]\x7d]", 0⟩).2 (by decide)⟩

/-- C2: for either valid action, the body `subscribe` hands to the transport
is `{"controlData":"..."}` where the inner string is, for each label in
input order, the token `verb(product_id.label)`, joined by `;` with a
trailing `;`; in particular for SUBSCRIBE of product 360148977 with labels
["B", "A"] it is `{"controlData":"req(360148977.B);req(360148977.A);"}`. -/
theorem C2_subscribe_control_payload (E sid : String) (pid : Nat)
    (labels : List String) (send : Request → Except String SubResponse) :
    ((subscribe E ⟨Action.SUBSCRIBE, pid, labels⟩ sid send).sent.map Request.data =
      ["\x7b\"controlData\":\"" ++
        String.intercalate ";"
          (labels.map fun label => "req" ++ "(" ++ Nat.repr pid ++ "." ++ label ++ ")") ++
        ";\"\x7d"]) ∧
    ((subscribe E ⟨Action.UNSUBSCRIBE, pid, labels⟩ sid send).sent.map Request.data =
      ["\x7b\"controlData\":\"" ++
        String.intercalate ";"
          (labels.map fun label => "rel" ++ "(" ++ Nat.repr pid ++ "." ++ label ++ ")") ++
        ";\"\x7d"]) ∧
    ((subscribe E ⟨Action.SUBSCRIBE, 360148977, ["B", "A"]⟩ sid send).sent.map Request.data =
      ["\x7b\"controlData\":\"req(360148977.B);req(360148977.A);\"\x7d"]) := by
  refine ⟨?_, ?_, ?_⟩
  · rw [show subscribe E ⟨Action.SUBSCRIBE, pid, labels⟩ sid send =
        subscribeSend (E ++ "/" ++ sid) "req" ⟨Action.SUBSCRIBE, pid, labels⟩ send from by
          simp [subscribe]]
    rw [subscribeSend_sent, controlData_eq]
    rfl
  · rw [show subscribe E ⟨Action.UNSUBSCRIBE, pid, labels⟩ sid send =
        subscribeSend (E ++ "/" ++ sid) "rel" ⟨Action.UNSUBSCRIBE, pid, labels⟩ send from by
          simp [subscribe, Action.SUBSCRIBE, Action.UNSUBSCRIBE]]
    rw [subscribeSend_sent, controlData_eq]
    rfl
  · rw [show subscribe E ⟨Action.SUBSCRIBE, 360148977, ["B", "A"]⟩ sid send =
        subscribeSend (E ++ "/" ++ sid) "req" ⟨Action.SUBSCRIBE, 360148977, ["B", "A"]⟩ send from by
          simp [subscribe]]
    rw [subscribeSend_sent]
    simp only [List.map_cons, List.map_nil]
    rfl

/-- C3: `subscribe` builds its control payload with verb `req` when the
action is SUBSCRIBE and `rel` when it is UNSUBSCRIBE; for any other action
value it raises `AttributeError` instead of silently using a default verb. -/
theorem C3_subscribe_verb_dispatch (E sid : String) (req : SubscriptionRequest)
    (send : Request → Except String SubResponse) :
    (req.action = Action.SUBSCRIBE →
      (subscribe E req sid send).sent =
        [⟨"POST", E ++ "/" ++ sid, [], controlData "req" req⟩]) ∧
    (req.action = Action.UNSUBSCRIBE →
      (subscribe E req sid send).sent =
        [⟨"POST", E ++ "/" ++ sid, [], controlData "rel" req⟩]) ∧
    (req.action ≠ Action.SUBSCRIBE → req.action ≠ Action.UNSUBSCRIBE →
      (subscribe E req sid send).result =
        .error (.attributeError "Unknown \"Request.action\".")) := by
  refine ⟨?_, ?_, ?_⟩
  · intro h
    simp [subscribe, h, subscribeSend_sent]
  · intro h
    simp [subscribe, h, Action.SUBSCRIBE, Action.UNSUBSCRIBE, subscribeSend_sent]
  · intro h1 h2
    simp [subscribe, h1, h2]

theorem C3_subscribe_verb_dispatch_witness :
    ((subscribe "u" ⟨Action.SUBSCRIBE, 7, ["L"]⟩ "s" (fun _ => .ok ⟨"", 200⟩)).sent =
      [⟨"POST", "u" ++ "/" ++ "s", [], controlData "req" ⟨Action.SUBSCRIBE, 7, ["L"]⟩⟩]) ∧
    ((subscribe "u" ⟨Action.UNSUBSCRIBE, 7, ["L"]⟩ "s" (fun _ => .ok ⟨"", 200⟩)).sent =
      [⟨"POST", "u" ++ "/" ++ "s", [], controlData "rel" ⟨Action.UNSUBSCRIBE, 7, ["L"]⟩⟩]) ∧
    ((subscribe "u" ⟨5, 7, ["L"]⟩ "s" (fun _ => .ok ⟨"", 200⟩)).result =
      .error (.attributeError "Unknown \"Request.action\".")) :=
  ⟨(C3_subscribe_verb_dispatch "u" "s" ⟨Action.SUBSCRIBE, 7, ["L"]⟩ (fun _ => .ok ⟨"", 200⟩)).1 rfl,
   (C3_subscribe_verb_dispatch "u" "s" ⟨Action.UNSUBSCRIBE, 7, ["L"]⟩
      (fun _ => .ok ⟨"", 200⟩)).2.1 rfl,
   (C3_subscribe_verb_dispatch "u" "s" ⟨5, 7, ["L"]⟩ (fun _ => .ok ⟨"", 200⟩)).2.2
      (by decide) (by decide)⟩

/-- C9: with a valid action and an empty label list, `subscribe` still hands
exactly one POST request to the transport, and its body is exactly
`{"controlData":";"}` — the trailing semicolon survives with zero labels. -/
theorem C9_subscribe_empty_labels (E sid : String) (pid : Nat)
    (send : Request → Except String SubResponse) :
    ((subscribe E ⟨Action.SUBSCRIBE, pid, []⟩ sid send).sent =
      [⟨"POST", E ++ "/" ++ sid, [], "\x7b\"controlData\":\";\"\x7d"⟩]) ∧
    ((subscribe E ⟨Action.UNSUBSCRIBE, pid, []⟩ sid send).sent =
      [⟨"POST", E ++ "/" ++ sid, [], "\x7b\"controlData\":\";\"\x7d"⟩]) := by
  constructor
  · rw [show subscribe E ⟨Action.SUBSCRIBE, pid, []⟩ sid send =
        subscribeSend (E ++ "/" ++ sid) "req" ⟨Action.SUBSCRIBE, pid, []⟩ send from by
          simp [subscribe]]
    rw [subscribeSend_sent, controlData_eq]
    rfl
  · rw [show subscribe E ⟨Action.UNSUBSCRIBE, pid, []⟩ sid send =
        subscribeSend (E ++ "/" ++ sid) "rel" ⟨Action.UNSUBSCRIBE, pid, []⟩ send from by
          simp [subscribe, Action.SUBSCRIBE, Action.UNSUBSCRIBE]]
    rw [subscribeSend_sent, controlData_eq]
    rfl

/-- C10: calling `subscribe` with an action outside
(SUBSCRIBE, UNSUBSCRIBE) raises the `AttributeError` before anything is
handed to the transport: the whole observable outcome is an empty sent
list, an empty log, and the propagated error. -/
theorem C10_invalid_action_no_send (E sid : String) (req : SubscriptionRequest)
    (send : Request → Except String SubResponse)
    (h1 : req.action ≠ Action.SUBSCRIBE) (h2 : req.action ≠ Action.UNSUBSCRIBE) :
    subscribe E req sid send =
      ⟨[], [], .error (.attributeError "Unknown \"Request.action\".")⟩ := by
  simp [subscribe, h1, h2]

theorem C10_invalid_action_no_send_witness :
    subscribe "u" ⟨2, 7, ["L"]⟩ "s" (fun _ => .ok ⟨"", 200⟩) =
      ⟨[], [], .error (.attributeError "Unknown \"Request.action\".")⟩ :=
  C10_invalid_action_no_send "u" "s" ⟨2, 7, ["L"]⟩ (fun _ => .ok ⟨"", 200⟩)
    (by decide) (by decide)

/-- C5: when the transport send in `subscribe` succeeds, the returned value
is the boolean `status_code == 200`: `true` exactly for status 200, `false`
for every other status, with no exception raised and no transport-error
handling involved. -/
theorem C5_subscribe_status_200 (E sid : String) (req : SubscriptionRequest)
    (resp : SubResponse)
    (hvalid : req.action = Action.SUBSCRIBE ∨ req.action = Action.UNSUBSCRIBE) :
    (subscribe E req sid (fun _ => .ok resp)).result = .ok (resp.status_code == 200) ∧
    ((subscribe E req sid (fun _ => .ok resp)).result = .ok true ↔
      resp.status_code = 200) := by
  have key : (subscribe E req sid (fun _ => .ok resp)).result =
      .ok (resp.status_code == 200) := by
    rcases hvalid with h | h
    · simp [subscribe, h, subscribeSend]
    · simp [subscribe, h, Action.SUBSCRIBE, Action.UNSUBSCRIBE, subscribeSend]
  refine ⟨key, ?_⟩
  rw [key]
  simp

theorem C5_subscribe_status_200_witness :
    ((subscribe "u" ⟨Quotecast.Action.SUBSCRIBE, 1, ["L"]⟩ "s"
        (fun _ => .ok ⟨"", 200⟩)).result = .ok ((200 : Nat) == 200) ∧
      ((subscribe "u" ⟨Quotecast.Action.SUBSCRIBE, 1, ["L"]⟩ "s"
        (fun _ => .ok ⟨"", 200⟩)).result = .ok true ↔ (200 : Nat) = 200)) ∧
    ((subscribe "u" ⟨Quotecast.Action.SUBSCRIBE, 1, ["L"]⟩ "s"
        (fun _ => .ok ⟨"", 404⟩)).result = .ok ((404 : Nat) == 200) ∧
      ((subscribe "u" ⟨Quotecast.Action.SUBSCRIBE, 1, ["L"]⟩ "s"
        (fun _ => .ok ⟨"", 404⟩)).result = .ok true ↔ (404 : Nat) = 200)) :=
  ⟨C5_subscribe_status_200 "u" "s" ⟨Action.SUBSCRIBE, 1, ["L"]⟩ ⟨"", 200⟩ (Or.inl rfl),
   C5_subscribe_status_200 "u" "s" ⟨Action.SUBSCRIBE, 1, ["L"]⟩ ⟨"", 404⟩ (Or.inl rfl)⟩

/-- C6: when the acquisition response parses as a key/value structure,
`get_session_id` returns exactly the value stored under the `sessionId` key
(`.sessionId v`); when the key is absent it returns the distinct `.noId`
result, which differs from the transport-failure result `.failure`; and for
the body `{"sessionId": "X"}` it returns exactly `"X"`. -/
theorem C6_get_session_id_result (E V : String) (tok : Int)
    (d : List (String × String)) :
    (∀ v, d.lookup "sessionId" = some v →
      (get_session_id E V tok (fun _ => .ok ⟨.ok d⟩)).result = .sessionId v) ∧
    (d.lookup "sessionId" = none →
      (get_session_id E V tok (fun _ => .ok ⟨.ok d⟩)).result = .noId) ∧
    SessionIdResult.noId ≠ SessionIdResult.failure ∧
    (∀ v, SessionIdResult.sessionId v ≠ SessionIdResult.failure) ∧
    ((get_session_id E V tok (fun _ => .ok ⟨.ok [("sessionId", "X")]⟩)).result =
      .sessionId "X") := by
  refine ⟨?_, ?_, by simp, fun v => by simp, by simp [get_session_id]⟩
  · intro v h
    simp [get_session_id, h]
  · intro h
    simp [get_session_id, h]

theorem C6_get_session_id_result_witness :
    ((get_session_id "u" "1" 5 (fun _ => .ok ⟨.ok [("sessionId", "abc")]⟩)).result =
      .sessionId "abc") ∧
    ((get_session_id "u" "1" 5 (fun _ => .ok ⟨.ok [("status", "error")]⟩)).result =
      .noId) :=
  ⟨(C6_get_session_id_result "u" "1" 5 [("sessionId", "abc")]).1 "abc" rfl,
   (C6_get_session_id_result "u" "1" 5 [("status", "error")]).2.1 rfl⟩

/-- C4 counterexample: in the data-polling operation there is no local
handler at all — with a transport exception during send, `fetch_data`
propagates it (result `.error (.transportError _)`) and logs nothing, so
the claim "for every operation ... caught locally, logged at fatal
severity, surfaced as a sentinel failure value, never propagated" is false
at this input. -/
theorem C4_counterexample_poll_transport_propagates :
    fetch_data "u" (fun _ => ⟨1970, 1, 1, 0, 0, 0⟩) 0 0 "s"
        (fun _ => .error "ConnectionError") =
      ⟨[], .error (.transportError "ConnectionError")⟩ := rfl

/-- C4 amended: a transport exception during send is caught locally, logged
at fatal severity and surfaced as the sentinel failure value in session
acquisition (`False`) and in subscription control (`false`); in data
polling it is not caught and propagates to the caller. -/
theorem C4_transport_error_policy (E V sid : String) (tok : Int) (e : String)
    (req : SubscriptionRequest) (localtime : Nat → StructTime) (start stop : Int)
    (hvalid : req.action = Action.SUBSCRIBE ∨ req.action = Action.UNSUBSCRIBE) :
    get_session_id E V tok (fun _ => .error e) = ⟨[(.fatal, e)], .failure⟩ ∧
    ((subscribe E req sid (fun _ => .error e)).result = .ok false ∧
      (subscribe E req sid (fun _ => .error e)).log =
        [(.info, "subscribe:payload: %s"), (.fatal, e)]) ∧
    fetch_data E localtime start stop sid (fun _ => .error e) =
      ⟨[], .error (.transportError e)⟩ := by
  refine ⟨rfl, ?_, rfl⟩
  rcases hvalid with h | h
  · constructor <;> simp [subscribe, h, subscribeSend]
  · constructor <;> simp [subscribe, h, Action.SUBSCRIBE, Action.UNSUBSCRIBE, subscribeSend]

theorem C4_transport_error_policy_witness :
    (get_session_id "u" "1" 9 (fun _ => .error "boom") =
      ⟨[(.fatal, "boom")], .failure⟩) ∧
    ((subscribe "u" ⟨Quotecast.Action.SUBSCRIBE, 3, ["L"]⟩ "s"
        (fun _ => .error "boom")).result = .ok false ∧
      (subscribe "u" ⟨Quotecast.Action.SUBSCRIBE, 3, ["L"]⟩ "s"
        (fun _ => .error "boom")).log =
        [(.info, "subscribe:payload: %s"), (.fatal, "boom")]) ∧
    fetch_data "u" (fun _ => ⟨1970, 1, 1, 0, 0, 0⟩) 0 0 "s"
        (fun _ => .error "boom") =
      ⟨[], .error (.transportError "boom")⟩ :=
  C4_transport_error_policy "u" "1" "s" 9 "boom" ⟨Action.SUBSCRIBE, 3, ["L"]⟩
    (fun _ => ⟨1970, 1, 1, 0, 0, 0⟩) 0 0 (Or.inl rfl)

/-- C7 counterexample: a parse error while reading the acquisition response
is caught and surfaced as the returned failure value (it does not
propagate), and the sentinel poll body raises a `BrokenPipeError` — so the
claim that the only propagating exceptions are InvalidAction and a
transport/parse error during acquisition parsing is false on both counts. -/
theorem C7_counterexample_raise_policy :
    (get_session_id "u" "1" 0 (fun _ => .ok ⟨.error "Expecting value"⟩) =
      ⟨[(.fatal, "Expecting value")], .failure⟩) ∧
    ((fetch_data "u" (fun _ => ⟨1970, 1, 1, 0, 0, 0⟩) 0 0 "s"
        (fun _ => .ok ⟨"[\x7b\"m\":\"sr\"\x7d]", 0⟩)).result =
      .error (.brokenPipeError "A new \"session_id\" is required.")) :=
  ⟨rfl, rfl⟩

/-- C7 amended: session acquisition always returns (transport and parse
errors included); data polling propagates exactly two exceptions — a
transport error raised during send and the SessionExpired
(`BrokenPipeError`) on the sentinel body — and returns otherwise; and
subscription control returns a boolean for both valid actions under every
transport behaviour, raising only the InvalidAction (`AttributeError`). -/
theorem C7_raise_policy (E V sid : String) (tok : Int) (e : String)
    (resp : PollResponse) (req : SubscriptionRequest)
    (localtime : Nat → StructTime) (start stop : Int)
    (sendS : Request → Except String SubResponse) :
    (∀ x : Except String AcqResponse,
      (get_session_id E V tok (fun _ => x)).result = .failure ∨
      (get_session_id E V tok (fun _ => x)).result = .noId ∨
      ∃ v, (get_session_id E V tok (fun _ => x)).result = .sessionId v) ∧
    ((fetch_data E localtime start stop sid (fun _ => .error e)).result =
      .error (.transportError e)) ∧
    (resp.text = sentinelResetPayload →
      (fetch_data E localtime start stop sid (fun _ => .ok resp)).result =
        .error (.brokenPipeError "A new \"session_id\" is required.")) ∧
    (resp.text ≠ sentinelResetPayload →
      ∃ raw, (fetch_data E localtime start stop sid (fun _ => .ok resp)).result =
        .ok raw) ∧
    ((req.action = Action.SUBSCRIBE ∨ req.action = Action.UNSUBSCRIBE) →
      ∃ b, (subscribe E req sid sendS).result = .ok b) ∧
    (req.action ≠ Action.SUBSCRIBE → req.action ≠ Action.UNSUBSCRIBE →
      (subscribe E req sid sendS).result =
        .error (.attributeError "Unknown \"Request.action\".")) := by
  refine ⟨?_, rfl, ?_, ?_, ?_, ?_⟩
  · intro x
    rcases x with e' | r
    · left; rfl
    · rcases r with ⟨jr⟩
      rcases jr with pe | dd
      · left; rfl
      · rcases hl : dd.lookup "sessionId" with _ | v
        · right; left; simp [get_session_id, hl]
        · right; right; exact ⟨v, by simp [get_session_id, hl]⟩
  · intro h
    simp [fetch_data, h]
  · intro h
    exact ⟨⟨resp.text, ⟨strftimeYmdHMS (localtime resp.cookiesNow), stop - start⟩⟩,
      by simp [fetch_data, h]⟩
  · intro hvalid
    rcases hvalid with h | h
    · rw [show subscribe E req sid sendS = subscribeSend (E ++ "/" ++ sid) "req" req sendS
        from by simp [subscribe, h]]
      exact subscribeSend_result_ok _ _ _ _
    · rw [show subscribe E req sid sendS = subscribeSend (E ++ "/" ++ sid) "rel" req sendS
        from by simp [subscribe, h, Action.SUBSCRIBE, Action.UNSUBSCRIBE]]
      exact subscribeSend_result_ok _ _ _ _
  · intro h1 h2
    simp [subscribe, h1, h2]

theorem C7_raise_policy_witness :
    ((get_session_id "u" "1" 0 (fun _ => .ok ⟨.error "bad json"⟩)).result = .failure ∨
      (get_session_id "u" "1" 0 (fun _ => .ok ⟨.error "bad json"⟩)).result = .noId ∨
      ∃ v, (get_session_id "u" "1" 0 (fun _ => .ok ⟨.error "bad json"⟩)).result =
        .sessionId v) ∧
    ((fetch_data "u" (fun _ => ⟨1970, 1, 1, 0, 0, 0⟩) 0 0 "s"
        (fun _ => .ok ⟨"[\x7b\"m\":\"sr\"\x7d]", 0⟩)).result =
      .error (.brokenPipeError "A new \"session_id\" is required.")) ∧
    (∃ raw, (fetch_data "u" (fun _ => ⟨1970, 1, 1, 0, 0, 0⟩) 0 0 "s"
        (fun _ => .ok ⟨"[]", 0⟩)).result = .ok raw) ∧
    (∃ b, (subscribe "u" ⟨Quotecast.Action.SUBSCRIBE, 3, ["L"]⟩ "s"
        (fun _ => .ok ⟨"", 200⟩)).result = .ok b) ∧
    ((subscribe "u" ⟨9, 3, ["L"]⟩ "s" (fun _ => .ok ⟨"", 200⟩)).result =
      .error (.attributeError "Unknown \"Request.action\".")) :=
  ⟨(C7_raise_policy "u" "1" "s" 0 "boom" ⟨"[]", 0⟩ ⟨Action.SUBSCRIBE, 3, ["L"]⟩
      (fun _ => ⟨1970, 1, 1, 0, 0, 0⟩) 0 0 (fun _ => .ok ⟨"", 200⟩)).1
      (.ok ⟨.error "bad json"⟩),
   (C7_raise_policy "u" "1" "s" 0 "boom" ⟨"[\x7b\"m\":\"sr\"\x7d]", 0⟩
      ⟨Action.SUBSCRIBE, 3, ["L"]⟩ (fun _ => ⟨1970, 1, 1, 0, 0, 0⟩) 0 0
      (fun _ => .ok ⟨"", 200⟩)).2.2.1 rfl,
   (C7_raise_policy "u" "1" "s" 0 "boom" ⟨"[]", 0⟩ ⟨Action.SUBSCRIBE, 3, ["L"]⟩
      (fun _ => ⟨1970, 1, 1, 0, 0, 0⟩) 0 0 (fun _ => .ok ⟨"", 200⟩)).2.2.2.1
      (by decide),
   (C7_raise_policy "u" "1" "s" 0 "boom" ⟨"[]", 0⟩ ⟨Action.SUBSCRIBE, 3, ["L"]⟩
      (fun _ => ⟨1970, 1, 1, 0, 0, 0⟩) 0 0 (fun _ => .ok ⟨"", 200⟩)).2.2.2.2.1
      (Or.inl rfl),
   (C7_raise_policy "u" "1" "s" 0 "boom" ⟨"[]", 0⟩ ⟨9, 3, ["L"]⟩
      (fun _ => ⟨1970, 1, 1, 0, 0, 0⟩) 0 0 (fun _ => .ok ⟨"", 200⟩)).2.2.2.2.2
      (by decide) (by decide)⟩

/-- C8: on a successful poll the `response_datetime` in the returned
metadata is `strftimeYmdHMS (localtime response.cookiesNow)` — computed
from the timestamp the transport layer stamped on the response, so it is
unchanged when the call-time system-clock readings (`start`, `stop`)
change — and, for in-range calendar fields, that string decomposes as
four digits, `-`, two digits, `-`, two digits, space, two digits, `:`,
two digits, `:`, two digits, i.e. `YYYY-MM-DD HH:MM:SS`. -/
theorem C8_fetch_data_timestamp (E sid : String) (localtime : Nat → StructTime)
    (start stop start2 stop2 : Int) (resp : PollResponse)
    (hs : resp.text ≠ sentinelResetPayload)
    (hy1 : 1000 ≤ (localtime resp.cookiesNow).tm_year)
    (hy2 : (localtime resp.cookiesNow).tm_year < 10000)
    (hmo : (localtime resp.cookiesNow).tm_mon < 100)
    (hd : (localtime resp.cookiesNow).tm_mday < 100)
    (hh : (localtime resp.cookiesNow).tm_hour < 100)
    (hmi : (localtime resp.cookiesNow).tm_min < 100)
    (hse : (localtime resp.cookiesNow).tm_sec < 100) :
    ((fetch_data E localtime start stop sid (fun _ => .ok resp)).result =
      .ok ⟨resp.text, ⟨strftimeYmdHMS (localtime resp.cookiesNow), stop - start⟩⟩) ∧
    ((fetch_data E localtime start2 stop2 sid (fun _ => .ok resp)).result =
      .ok ⟨resp.text, ⟨strftimeYmdHMS (localtime resp.cookiesNow), stop2 - start2⟩⟩) ∧
    (∃ Y Mo D H Mi S : String,
      strftimeYmdHMS (localtime resp.cookiesNow) =
        Y ++ "-" ++ Mo ++ "-" ++ D ++ " " ++ H ++ ":" ++ Mi ++ ":" ++ S ∧
      Y.length = 4 ∧ Mo.length = 2 ∧ D.length = 2 ∧ H.length = 2 ∧
      Mi.length = 2 ∧ S.length = 2 ∧
      Y.data.all Char.isDigit = true ∧ Mo.data.all Char.isDigit = true ∧
      D.data.all Char.isDigit = true ∧ H.data.all Char.isDigit = true ∧
      Mi.data.all Char.isDigit = true ∧ S.data.all Char.isDigit = true) := by
  refine ⟨by simp [fetch_data, hs], by simp [fetch_data, hs], ?_⟩
  refine ⟨Nat.repr (localtime resp.cookiesNow).tm_year,
    pad2 (localtime resp.cookiesNow).tm_mon, pad2 (localtime resp.cookiesNow).tm_mday,
    pad2 (localtime resp.cookiesNow).tm_hour, pad2 (localtime resp.cookiesNow).tm_min,
    pad2 (localtime resp.cookiesNow).tm_sec, rfl,
    (repr_year_data _ hy1 hy2).1, (pad2_data _ hmo).1, (pad2_data _ hd).1,
    (pad2_data _ hh).1, (pad2_data _ hmi).1, (pad2_data _ hse).1,
    (repr_year_data _ hy1 hy2).2, (pad2_data _ hmo).2, (pad2_data _ hd).2,
    (pad2_data _ hh).2, (pad2_data _ hmi).2, (pad2_data _ hse).2⟩

theorem C8_fetch_data_timestamp_witness :
    ((fetch_data "u" (fun _ => ⟨2020, 5, 17, 14, 3, 9⟩) 10 25 "s"
        (fun _ => .ok ⟨"[]", 123⟩)).result =
      .ok ⟨"[]", ⟨strftimeYmdHMS ⟨2020, 5, 17, 14, 3, 9⟩, 15⟩⟩) ∧
    ((fetch_data "u" (fun _ => ⟨2020, 5, 17, 14, 3, 9⟩) 11 26 "s"
        (fun _ => .ok ⟨"[]", 123⟩)).result =
      .ok ⟨"[]", ⟨strftimeYmdHMS ⟨2020, 5, 17, 14, 3, 9⟩, 15⟩⟩) ∧
    (∃ Y Mo D H Mi S : String,
      strftimeYmdHMS ⟨2020, 5, 17, 14, 3, 9⟩ =
        Y ++ "-" ++ Mo ++ "-" ++ D ++ " " ++ H ++ ":" ++ Mi ++ ":" ++ S ∧
      Y.length = 4 ∧ Mo.length = 2 ∧ D.length = 2 ∧ H.length = 2 ∧
      Mi.length = 2 ∧ S.length = 2 ∧
      Y.data.all Char.isDigit = true ∧ Mo.data.all Char.isDigit = true ∧
      D.data.all Char.isDigit = true ∧ H.data.all Char.isDigit = true ∧
      Mi.data.all Char.isDigit = true ∧ S.data.all Char.isDigit = true) :=
  C8_fetch_data_timestamp "u" "s" (fun _ => ⟨2020, 5, 17, 14, 3, 9⟩) 10 25 11 26
    ⟨"[]", 123⟩ (by decide) (by decide) (by decide) (by decide) (by decide)
    (by decide) (by decide) (by decide)

end Quotecast
